import Mathlib

/-
Formal model of the velocity command generator of SRL-IsaacLab
(source/isaaclab_tasks/.../moonshot/locomotion/velocity/mdp/commands/velocity_command.py
and the older copy under source/extensions/omni.isaac.lab_tasks/...).

The per-agent tensors of the class UniformBodyVelocityCommand become
functions Fin N to values; the uniform random draws of _resample_command
become explicit inputs (one Draw record per agent); quaternions of the
external math library stand for rotations and are embedded by the rotation
matrices they denote (quat_mul is the matrix product, quat_rotate_inverse
applies the transpose, i.e. the inverse rotation). Real numbers replace
float tensors.
-/

open scoped Real

/-- Velocity command of one agent: linear x, linear y, angular z
(one row of the tensor vel_command_b). -/
structure Vec3 where
  x : ℝ
  y : ℝ
  z : ℝ

/-- The sampling ranges of UniformBodyVelocityCommandCfg.Ranges. -/
structure Ranges where
  lin_vel_x : ℝ × ℝ
  lin_vel_y : ℝ × ℝ
  ang_vel_z : ℝ × ℝ
  heading : Option (ℝ × ℝ)

/-- The fields of UniformBodyVelocityCommandCfg the command generator reads. -/
structure Cfg where
  heading_command : Bool
  rel_heading_envs : ℝ
  rel_standing_envs : ℝ
  heading_control_stiffness : ℝ
  resampling_time_range : ℝ × ℝ
  body_name : String
  ranges : Ranges

/-- Per-agent state of UniformBodyVelocityCommand: the command buffer, the
heading buffers, the standing flag and the two metric accumulators. -/
structure CommandState (N : ℕ) where
  vel_command_b : Fin N → Vec3
  heading_target : Fin N → ℝ
  is_heading_env : Fin N → Bool
  is_standing_env : Fin N → Bool
  error_vel_xy : Fin N → ℝ
  error_vel_yaw : Fin N → ℝ

/-- The uniform draws one call of _resample_command consumes for one agent:
three velocity samples, a heading sample and the two uniform(0,1) samples
compared against the heading and standing probabilities. -/
structure Draw where
  lin_x : ℝ
  lin_y : ℝ
  ang_z : ℝ
  heading : ℝ
  r_heading : ℝ
  r_standing : ℝ

/-- The Python modulo by 2*pi: the representative of θ in [0, 2*pi). -/
noncomputable def mod_two_pi (θ : ℝ) : ℝ :=
  θ - 2 * π * ⌊θ / (2 * π)⌋

/-- wrap_to_pi of the external math utilities: reduce the angle modulo 2*pi
into [0, 2*pi) (the Python modulo), then subtract 2*pi from entries above pi,
landing in (-pi, pi]. -/
noncomputable def wrap_to_pi (θ : ℝ) : ℝ :=
  if π < mod_two_pi θ then mod_two_pi θ - 2 * π else mod_two_pi θ

/-- torch.clip with lower and upper bounds: the lower bound is applied
first, then the upper bound. -/
noncomputable def clip (v lo hi : ℝ) : ℝ := min (max v lo) hi

/-- UniformBodyVelocityCommand._resample_command on the agents in env_ids:
overwrite the three command components with fresh uniform samples; when
heading commands are active, overwrite the heading target and redraw the
heading flag; always redraw the standing flag. The metrics are untouched. -/
noncomputable def resample_command {N : ℕ} (cfg : Cfg) (s : CommandState N)
    (env_ids : Finset (Fin N)) (draw : Fin N → Draw) : CommandState N where
  vel_command_b := fun i =>
    if i ∈ env_ids then ⟨(draw i).lin_x, (draw i).lin_y, (draw i).ang_z⟩
    else s.vel_command_b i
  heading_target := fun i =>
    if cfg.heading_command ∧ i ∈ env_ids then (draw i).heading
    else s.heading_target i
  is_heading_env := fun i =>
    if cfg.heading_command ∧ i ∈ env_ids then
      decide ((draw i).r_heading ≤ cfg.rel_heading_envs)
    else s.is_heading_env i
  is_standing_env := fun i =>
    if i ∈ env_ids then decide ((draw i).r_standing ≤ cfg.rel_standing_envs)
    else s.is_standing_env i
  error_vel_xy := s.error_vel_xy
  error_vel_yaw := s.error_vel_yaw

/-- The heading step of UniformBodyVelocityCommand._update_command: when
heading commands are active, every agent with the heading flag set gets its
angular z overwritten by the clipped proportional heading control; yaw i is
the current yaw of agent i (euler_xyz_from_quat of the desired-frame
orientation, supplied by the simulation each tick). -/
noncomputable def apply_heading {N : ℕ} (cfg : Cfg) (yaw : Fin N → ℝ)
    (s : CommandState N) : CommandState N :=
  if cfg.heading_command then
    { s with vel_command_b := fun i =>
        if s.is_heading_env i then
          ⟨(s.vel_command_b i).x, (s.vel_command_b i).y,
            clip (cfg.heading_control_stiffness *
                wrap_to_pi (s.heading_target i - yaw i))
              cfg.ranges.ang_vel_z.1 cfg.ranges.ang_vel_z.2⟩
        else s.vel_command_b i }
  else s

/-- The standing step of UniformBodyVelocityCommand._update_command: zero
the whole command row of every agent with the standing flag set. -/
noncomputable def apply_standing {N : ℕ} (s : CommandState N) : CommandState N :=
  { s with vel_command_b := fun i =>
      if s.is_standing_env i then ⟨0, 0, 0⟩ else s.vel_command_b i }

/-- UniformBodyVelocityCommand._update_command: the heading step first,
then the standing override. -/
noncomputable def update_command {N : ℕ} (cfg : Cfg) (yaw : Fin N → ℝ)
    (s : CommandState N) : CommandState N :=
  apply_standing (apply_heading cfg yaw s)

/-- The message of the ValueError raised by UniformBodyVelocityCommand.__init__. -/
def heading_cfg_error : String :=
  "The velocity command has heading commands active but the ranges.heading parameter is set to None."

/-- UniformBodyVelocityCommand.__init__: fail when heading commands are
active but no heading range is configured; otherwise return the freshly
zeroed buffers. -/
def initUniformBodyVelocityCommand (cfg : Cfg) (N : ℕ) :
    Except String (CommandState N) :=
  match cfg.heading_command, cfg.ranges.heading with
  | true, none => Except.error heading_cfg_error
  | _, _ =>
    Except.ok
      { vel_command_b := fun _ => ⟨0, 0, 0⟩
        heading_target := fun _ => 0
        is_heading_env := fun _ => false
        is_standing_env := fun _ => false
        error_vel_xy := fun _ => 0
        error_vel_yaw := fun _ => 0 }

/-- LowPassFilter of the extensions file: a smoothing factor and the
previous output, absent before the first call. The constructor stores alpha
as given, with no validation. -/
structure LowPassFilter where
  alpha : ℝ
  prev_value : Option ℝ

/-- LowPassFilter.__init__: store alpha, set prev_value to None. -/
def LowPassFilter.init (alpha : ℝ) : LowPassFilter :=
  { alpha := alpha, prev_value := none }

/-- LowPassFilter.apply: first call returns the input; later calls blend it
with the stored previous value. Returns the updated filter and its output. -/
noncomputable def LowPassFilter.applyFilter (f : LowPassFilter) (value : ℝ) :
    LowPassFilter × ℝ :=
  match f.prev_value with
  | none => ({ f with prev_value := some value }, value)
  | some prev =>
      let v := f.alpha * value + (1 - f.alpha) * prev
      ({ f with prev_value := some v }, v)

/-- The fixed native-to-desired rotation chosen by body name in
_get_body_vel_d and _get_body_quat_d: the two known reference links get
their hardcoded matrices, any other name raises ValueError (here: none). -/
noncomputable def tf_d_matrix : String → Option (Matrix (Fin 3) (Fin 3) ℝ)
  | "leg1link2" => some !![-1, 0, 0; 0, 0, 1; 0, 1, 0]
  | "leg1link4" => some !![0, 0, -1; -1, 0, 0; 0, 1, 0]
  | _ => none

/-- quat_mul of the external math utilities, on the rotations the
quaternions denote: composition is the matrix product. -/
noncomputable def quat_mul (a b : Matrix (Fin 3) (Fin 3) ℝ) :
    Matrix (Fin 3) (Fin 3) ℝ := a * b

/-- quat_rotate_inverse of the external math utilities, on the rotation the
quaternion denotes: apply the inverse rotation, i.e. the transpose of the
(orthonormal) rotation matrix. -/
noncomputable def quat_rotate_inverse (R : Matrix (Fin 3) (Fin 3) ℝ)
    (v : Fin 3 → ℝ) : Fin 3 → ℝ :=
  R.transpose.mulVec v

/-- UniformBodyVelocityCommand._get_body_vel_d: express a world-frame
velocity of the reference body in the desired forward/left/up frame, or
fail on an unknown body name. -/
noncomputable def get_body_vel_d (body_name : String)
    (body_quat_w : Matrix (Fin 3) (Fin 3) ℝ) (body_vel_w : Fin 3 → ℝ) :
    Option (Fin 3 → ℝ) :=
  match tf_d_matrix body_name with
  | none => none
  | some T => some (quat_rotate_inverse (quat_mul body_quat_w T) body_vel_w)

/-- The per-tick measurements of the reference body the simulation
supplies: its world orientation (as the rotation it denotes) and its world
linear and angular velocities. -/
structure BodyData (N : ℕ) where
  body_quat_w : Fin N → Matrix (Fin 3) (Fin 3) ℝ
  body_lin_vel_w : Fin N → Fin 3 → ℝ
  body_ang_vel_w : Fin N → Fin 3 → ℝ

/-- The body of UniformBodyVelocityCommand._update_metrics once the
desired-frame matrix T for cfg.body_name is resolved: the linear error term
compares the commanded xy with the measured linear velocity expressed in
the desired frame, the yaw error term compares the commanded z with the
world-frame measured angular z, both normalized by the maximum command time
divided by the step time. -/
noncomputable def update_metrics_core {N : ℕ} (cfg : Cfg) (step_dt : ℝ)
    (T : Matrix (Fin 3) (Fin 3) ℝ) (data : BodyData N) (s : CommandState N) :
    CommandState N :=
  let max_command_step := cfg.resampling_time_range.2 / step_dt
  { s with
    error_vel_xy := fun i =>
      let body_lin_vel_d :=
        quat_rotate_inverse (quat_mul (data.body_quat_w i) T) (data.body_lin_vel_w i)
      s.error_vel_xy i +
        Real.sqrt (((s.vel_command_b i).x - body_lin_vel_d 0) ^ 2 +
            ((s.vel_command_b i).y - body_lin_vel_d 1) ^ 2) / max_command_step
    error_vel_yaw := fun i =>
      s.error_vel_yaw i +
        |(s.vel_command_b i).z - data.body_ang_vel_w i 2| / max_command_step }

/-- UniformBodyVelocityCommand._update_metrics: resolve the desired-frame
matrix for cfg.body_name (failing on an unknown name, as _get_body_vel_d
does) and add the two per-tick error increments. -/
noncomputable def update_metrics {N : ℕ} (cfg : Cfg) (step_dt : ℝ)
    (data : BodyData N) (s : CommandState N) : Option (CommandState N) :=
  match tf_d_matrix cfg.body_name with
  | none => none
  | some T => some (update_metrics_core cfg step_dt T data s)

/-- Modelled from the spec (section 4.4, for comparison with the code): the
metric accumulator the spec describes, in which BOTH the linear and the
angular error terms compare against the measured velocity expressed in the
desired frame. -/
noncomputable def update_metrics_spec {N : ℕ} (cfg : Cfg) (step_dt : ℝ)
    (data : BodyData N) (s : CommandState N) : Option (CommandState N) :=
  match tf_d_matrix cfg.body_name with
  | none => none
  | some T =>
    let max_command_step := cfg.resampling_time_range.2 / step_dt
    some { s with
      error_vel_xy := fun i =>
        let body_lin_vel_d :=
          quat_rotate_inverse (quat_mul (data.body_quat_w i) T) (data.body_lin_vel_w i)
        s.error_vel_xy i +
          Real.sqrt (((s.vel_command_b i).x - body_lin_vel_d 0) ^ 2 +
              ((s.vel_command_b i).y - body_lin_vel_d 1) ^ 2) / max_command_step
      error_vel_yaw := fun i =>
        let body_ang_vel_d :=
          quat_rotate_inverse (quat_mul (data.body_quat_w i) T) (data.body_ang_vel_w i)
        s.error_vel_yaw i +
          |(s.vel_command_b i).z - body_ang_vel_d 2| / max_command_step }

/-- One call of the stepping contract: a resample of some agents or the
per-tick command post-processing. -/
inductive GenOp (N : ℕ) where
  | resample (env_ids : Finset (Fin N)) (draw : Fin N → Draw)
  | update (yaw : Fin N → ℝ)

/-- Apply one operation to the per-agent state. -/
noncomputable def applyOp {N : ℕ} (cfg : Cfg) (op : GenOp N)
    (s : CommandState N) : CommandState N :=
  match op with
  | GenOp.resample env_ids draw => resample_command cfg s env_ids draw
  | GenOp.update yaw => update_command cfg yaw s

/-- Run a sequence of resample and update calls. -/
noncomputable def runOps {N : ℕ} (cfg : Cfg) (ops : List (GenOp N))
    (s : CommandState N) : CommandState N :=
  ops.foldl (fun t op => applyOp cfg op t) s

/-- One command row lies within the three configured sampling ranges. -/
def in_ranges (cfg : Cfg) (v : Vec3) : Prop :=
  (cfg.ranges.lin_vel_x.1 ≤ v.x ∧ v.x ≤ cfg.ranges.lin_vel_x.2) ∧
  (cfg.ranges.lin_vel_y.1 ≤ v.y ∧ v.y ≤ cfg.ranges.lin_vel_y.2) ∧
  (cfg.ranges.ang_vel_z.1 ≤ v.z ∧ v.z ≤ cfg.ranges.ang_vel_z.2)

/-
Concrete instances used by witnesses and counterexamples.
-/

/-- The desired-frame rotation hardcoded for the reference link leg1link2. -/
noncomputable def tf_leg1link2 : Matrix (Fin 3) (Fin 3) ℝ :=
  !![-1, 0, 0; 0, 0, 1; 0, 1, 0]

/-- A configuration with heading commands active. -/
noncomputable def cfgHeadingOn : Cfg :=
  { heading_command := true
    rel_heading_envs := 1
    rel_standing_envs := 1
    heading_control_stiffness := 1
    resampling_time_range := (5, 5)
    body_name := "leg1link2"
    ranges :=
      { lin_vel_x := (-1, 1)
        lin_vel_y := (-1, 1)
        ang_vel_z := (-1, 1)
        heading := some (0, 3) } }

/-- The same configuration with heading commands disabled. -/
noncomputable def cfgHeadingOff : Cfg :=
  { cfgHeadingOn with heading_command := false }

/-- A configuration with heading commands active but no heading range. -/
noncomputable def cfgHeadingNone : Cfg :=
  { heading_command := true
    rel_heading_envs := 1
    rel_standing_envs := 1
    heading_control_stiffness := 1
    resampling_time_range := (5, 5)
    body_name := "leg1link2"
    ranges :=
      { lin_vel_x := (-1, 1)
        lin_vel_y := (-1, 1)
        ang_vel_z := (-1, 1)
        heading := none } }

/-- A configuration whose linear x range excludes zero. -/
noncomputable def cfgPositiveX : Cfg :=
  { heading_command := false
    rel_heading_envs := 0
    rel_standing_envs := 1
    heading_control_stiffness := 1
    resampling_time_range := (5, 5)
    body_name := "leg1link2"
    ranges :=
      { lin_vel_x := (1, 2)
        lin_vel_y := (0, 0)
        ang_vel_z := (0, 0)
        heading := none } }

/-- A configuration for the metric scenarios: the maximum resampling time is
200 with a step time of 1. -/
noncomputable def cfgMetrics : Cfg :=
  { heading_command := false
    rel_heading_envs := 0
    rel_standing_envs := 0
    heading_control_stiffness := 1
    resampling_time_range := (10, 200)
    body_name := "leg1link2"
    ranges :=
      { lin_vel_x := (-1, 1)
        lin_vel_y := (-1, 1)
        ang_vel_z := (-1, 1)
        heading := none } }

/-- A one-agent state whose agent is both heading controlled and standing. -/
noncomputable def stateOne : CommandState 1 :=
  { vel_command_b := fun _ => ⟨1, 0, 1⟩
    heading_target := fun _ => 1
    is_heading_env := fun _ => true
    is_standing_env := fun _ => true
    error_vel_xy := fun _ => 0
    error_vel_yaw := fun _ => 0 }

/-- A one-agent state with an in-range sampled command and the standing
flag set, for the configuration whose x range excludes zero. -/
noncomputable def statePositiveX : CommandState 1 :=
  { vel_command_b := fun _ => ⟨1, 0, 0⟩
    heading_target := fun _ => 0
    is_heading_env := fun _ => false
    is_standing_env := fun _ => true
    error_vel_xy := fun _ => 0
    error_vel_yaw := fun _ => 0 }

/-- A one-agent state commanding linear velocity (1,0) with zeroed
accumulators and no flags set. -/
noncomputable def stateCmdX : CommandState 1 :=
  { vel_command_b := fun _ => ⟨1, 0, 0⟩
    heading_target := fun _ => 0
    is_heading_env := fun _ => false
    is_standing_env := fun _ => false
    error_vel_xy := fun _ => 0
    error_vel_yaw := fun _ => 0 }

/-- A two-agent state, all flags cleared. -/
noncomputable def stateTwo : CommandState 2 :=
  { vel_command_b := fun _ => ⟨1, 0, 1⟩
    heading_target := fun _ => 1
    is_heading_env := fun _ => false
    is_standing_env := fun _ => false
    error_vel_xy := fun _ => 0
    error_vel_yaw := fun _ => 0 }

/-- A concrete draw record. -/
noncomputable def drawZero : Draw := ⟨0, 0, 0, 0, 1, 1⟩

/-- Reference-body measurements for one agent: identity orientation, zero
linear velocity, world angular velocity (0, 1, 0). -/
noncomputable def bodyDataOne : BodyData 1 :=
  { body_quat_w := fun _ => 1
    body_lin_vel_w := fun _ => 0
    body_ang_vel_w := fun _ => ![0, 1, 0] }

/-- The per-tick increment _update_metrics adds to the linear error
accumulator of agent i, as a function of the command buffer v. -/
noncomputable def xy_err_increment {N : ℕ} (cfg : Cfg) (step_dt : ℝ)
    (T : Matrix (Fin 3) (Fin 3) ℝ) (data : BodyData N) (v : Fin N → Vec3)
    (i : Fin N) : ℝ :=
  Real.sqrt (((v i).x -
        quat_rotate_inverse (quat_mul (data.body_quat_w i) T) (data.body_lin_vel_w i) 0) ^ 2 +
      ((v i).y -
        quat_rotate_inverse (quat_mul (data.body_quat_w i) T) (data.body_lin_vel_w i) 1) ^ 2) /
    (cfg.resampling_time_range.2 / step_dt)

/-
Helper lemmas, shared by several claim theorems.
-/

theorem mod_two_pi_nonneg (θ : ℝ) : 0 ≤ mod_two_pi θ := by
  have h2π : (0:ℝ) < 2 * π := by positivity
  have ha : mod_two_pi θ = 2 * π * Int.fract (θ / (2 * π)) := by
    rw [mod_two_pi, Int.fract]
    field_simp
  rw [ha]
  exact mul_nonneg h2π.le (Int.fract_nonneg _)

theorem mod_two_pi_lt (θ : ℝ) : mod_two_pi θ < 2 * π := by
  have h2π : (0:ℝ) < 2 * π := by positivity
  have ha : mod_two_pi θ = 2 * π * Int.fract (θ / (2 * π)) := by
    rw [mod_two_pi, Int.fract]
    field_simp
  rw [ha]
  calc 2 * π * Int.fract (θ / (2 * π)) < 2 * π * 1 :=
        mul_lt_mul_of_pos_left (Int.fract_lt_one _) h2π
    _ = 2 * π := by ring

theorem wrap_to_pi_bounds (θ : ℝ) : -π < wrap_to_pi θ ∧ wrap_to_pi θ ≤ π := by
  have hπ : (0:ℝ) < π := Real.pi_pos
  have h0 := mod_two_pi_nonneg θ
  have h1 := mod_two_pi_lt θ
  rw [wrap_to_pi]
  by_cases h : π < mod_two_pi θ
  · rw [if_pos h]
    constructor <;> linarith
  · rw [if_neg h]
    push_neg at h
    constructor <;> linarith

theorem wrap_to_pi_sub_int (θ : ℝ) : ∃ k : ℤ, θ - wrap_to_pi θ = 2 * π * k := by
  rw [wrap_to_pi]
  by_cases h : π < mod_two_pi θ
  · refine ⟨⌊θ / (2 * π)⌋ + 1, ?_⟩
    rw [if_pos h, mod_two_pi]
    push_cast
    ring
  · refine ⟨⌊θ / (2 * π)⌋, ?_⟩
    rw [if_neg h, mod_two_pi]
    ring

theorem wrap_to_pi_unique (θ e : ℝ) (he1 : -π < e) (he2 : e ≤ π)
    (hk : ∃ k : ℤ, θ - e = 2 * π * k) : e = wrap_to_pi θ := by
  obtain ⟨k, hk⟩ := hk
  obtain ⟨k2, hk2⟩ := wrap_to_pi_sub_int θ
  obtain ⟨hb1, hb2⟩ := wrap_to_pi_bounds θ
  have hπ : (0:ℝ) < π := Real.pi_pos
  have hdiff : e - wrap_to_pi θ = 2 * π * ((k2 - k : ℤ) : ℝ) := by
    push_cast
    linarith
  have hz : (k2 - k : ℤ) = 0 := by
    by_contra hne
    have h3 : (1:ℝ) ≤ |((k2 - k : ℤ) : ℝ)| := by
      rw [← Int.cast_abs]
      exact_mod_cast Int.one_le_abs hne
    have h4 : |e - wrap_to_pi θ| < 2 * π := by
      rw [abs_lt]
      constructor <;> linarith
    rw [hdiff, abs_mul, abs_of_pos (show (0:ℝ) < 2 * π by linarith)] at h4
    nlinarith
  rw [hz] at hdiff
  push_cast at hdiff
  linarith

theorem wrap_to_pi_six : wrap_to_pi 6 = 6 - 2 * π := by
  have h3 : (3:ℝ) < π := Real.pi_gt_three
  have h315 : π < 3.15 := Real.pi_lt_d2
  have hfl : ⌊(6:ℝ) / (2 * π)⌋ = 0 := by
    rw [Int.floor_eq_zero_iff, Set.mem_Ico]
    constructor
    · positivity
    · rw [div_lt_one (by linarith)]
      linarith
  have hm : mod_two_pi 6 = 6 := by
    rw [mod_two_pi, hfl]
    push_cast
    ring
  rw [wrap_to_pi, hm, if_pos (by linarith)]

theorem clip_le (v lo hi : ℝ) : clip v lo hi ≤ hi := min_le_right _ _

theorem le_clip (v lo hi : ℝ) (h : lo ≤ hi) : lo ≤ clip v lo hi :=
  le_min (le_max_right _ _) h

theorem apply_heading_heading_target {N : ℕ} (cfg : Cfg) (yaw : Fin N → ℝ)
    (s : CommandState N) :
    (apply_heading cfg yaw s).heading_target = s.heading_target := by
  rw [apply_heading]
  split <;> rfl

theorem apply_heading_is_heading {N : ℕ} (cfg : Cfg) (yaw : Fin N → ℝ)
    (s : CommandState N) :
    (apply_heading cfg yaw s).is_heading_env = s.is_heading_env := by
  rw [apply_heading]
  split <;> rfl

theorem apply_heading_is_standing {N : ℕ} (cfg : Cfg) (yaw : Fin N → ℝ)
    (s : CommandState N) :
    (apply_heading cfg yaw s).is_standing_env = s.is_standing_env := by
  rw [apply_heading]
  split <;> rfl

theorem apply_heading_of_not_heading {N : ℕ} (cfg : Cfg) (yaw : Fin N → ℝ)
    (s : CommandState N) (hc : cfg.heading_command = false) :
    apply_heading cfg yaw s = s := by
  rw [apply_heading, hc]
  rfl

theorem update_command_heading_target {N : ℕ} (cfg : Cfg) (yaw : Fin N → ℝ)
    (s : CommandState N) :
    (update_command cfg yaw s).heading_target = s.heading_target := by
  rw [update_command, apply_standing]
  exact apply_heading_heading_target cfg yaw s

theorem update_command_is_heading {N : ℕ} (cfg : Cfg) (yaw : Fin N → ℝ)
    (s : CommandState N) :
    (update_command cfg yaw s).is_heading_env = s.is_heading_env := by
  rw [update_command, apply_standing]
  exact apply_heading_is_heading cfg yaw s

theorem applyOp_heading_fields {N : ℕ} (cfg : Cfg) (hc : cfg.heading_command = false)
    (op : GenOp N) (s : CommandState N) :
    (applyOp cfg op s).heading_target = s.heading_target ∧
    (applyOp cfg op s).is_heading_env = s.is_heading_env := by
  cases op with
  | resample env_ids draw =>
    constructor <;> funext i <;> simp [applyOp, resample_command, hc]
  | update yaw =>
    exact ⟨update_command_heading_target cfg yaw s, update_command_is_heading cfg yaw s⟩

/-
The claim theorems.
-/

/-- Claim C2: an agent whose standing flag is true gets the exact zero
command from _update_command, regardless of its heading flag, heading
target or sampled values; the zeroing runs after the heading step, which is
the second component of update_command. -/
theorem C2_standing_precedence {N : ℕ} (cfg : Cfg) (yaw : Fin N → ℝ)
    (s : CommandState N) (i : Fin N) (h : s.is_standing_env i = true) :
    (update_command cfg yaw s).vel_command_b i = ⟨0, 0, 0⟩ := by
  have hs : (apply_heading cfg yaw s).is_standing_env i = true := by
    rw [apply_heading_is_standing]
    exact h
  rw [update_command, apply_standing]
  dsimp only
  rw [if_pos hs]

/-- Witness for C2 at a concrete heading-and-standing agent. -/
theorem C2_standing_precedence_witness :
    stateOne.is_standing_env 0 = true ∧
    (update_command cfgHeadingOn (fun _ => 0) stateOne).vel_command_b 0 = ⟨0, 0, 0⟩ :=
  ⟨rfl, C2_standing_precedence cfgHeadingOn (fun _ => 0) stateOne 0 rfl⟩

/-- Claim C3: with heading mode enabled, the heading step of _update_command
overwrites angular z of every heading-controlled agent with the clipped
proportional control of the wrapped heading error, leaves the other two
components alone, leaves agents without the heading flag untouched, and
runs before the standing override. -/
theorem C3_heading_override {N : ℕ} (cfg : Cfg) (yaw : Fin N → ℝ)
    (s : CommandState N) (i : Fin N) (hc : cfg.heading_command = true) :
    (s.is_heading_env i = true →
      (apply_heading cfg yaw s).vel_command_b i =
        ⟨(s.vel_command_b i).x, (s.vel_command_b i).y,
          clip (cfg.heading_control_stiffness *
              wrap_to_pi (s.heading_target i - yaw i))
            cfg.ranges.ang_vel_z.1 cfg.ranges.ang_vel_z.2⟩) ∧
    (s.is_heading_env i = false →
      (apply_heading cfg yaw s).vel_command_b i = s.vel_command_b i) ∧
    update_command cfg yaw s = apply_standing (apply_heading cfg yaw s) := by
  refine ⟨fun hh => ?_, fun hh => ?_, rfl⟩
  · rw [apply_heading, if_pos (by rw [hc] : cfg.heading_command = true)]
    dsimp only
    rw [if_pos hh]
  · rw [apply_heading, if_pos (by rw [hc] : cfg.heading_command = true)]
    dsimp only
    rw [if_neg (by simp [hh])]

/-- Witness for C3 at a concrete heading-controlled agent. -/
theorem C3_heading_override_witness :
    cfgHeadingOn.heading_command = true ∧
    (apply_heading cfgHeadingOn (fun _ => 0) stateOne).vel_command_b 0 =
      ⟨(stateOne.vel_command_b 0).x, (stateOne.vel_command_b 0).y,
        clip (cfgHeadingOn.heading_control_stiffness *
            wrap_to_pi (stateOne.heading_target 0 - 0))
          cfgHeadingOn.ranges.ang_vel_z.1 cfgHeadingOn.ranges.ang_vel_z.2⟩ :=
  ⟨rfl, (C3_heading_override cfgHeadingOn (fun _ => 0) stateOne 0 rfl).1 rfl⟩

/-- Claim C4: the wrapped heading error is the unique value in (-pi, pi]
congruent to the raw difference modulo 2*pi, and for target 3 and yaw -3
the error is 6 - 2*pi. -/
theorem C4_heading_wrap (θt θc : ℝ) :
    (-π < wrap_to_pi (θt - θc) ∧ wrap_to_pi (θt - θc) ≤ π) ∧
    (∃ k : ℤ, (θt - θc) - wrap_to_pi (θt - θc) = 2 * π * k) ∧
    (∀ e : ℝ, -π < e → e ≤ π → (∃ k : ℤ, (θt - θc) - e = 2 * π * k) →
      e = wrap_to_pi (θt - θc)) ∧
    wrap_to_pi ((3:ℝ) - (-3)) = 6 - 2 * π := by
  refine ⟨wrap_to_pi_bounds _, wrap_to_pi_sub_int _,
    fun e h1 h2 h3 => wrap_to_pi_unique _ e h1 h2 h3, ?_⟩
  have h6 : (3:ℝ) - (-3) = 6 := by norm_num
  rw [h6, wrap_to_pi_six]

/-- Claim C5: constructing the generator with heading commands active and
no heading range fails with the configuration error, and no generator state
is returned. -/
theorem C5_construction_failure (cfg : Cfg) (N : ℕ)
    (h : cfg.heading_command = true ∧ cfg.ranges.heading = none) :
    initUniformBodyVelocityCommand cfg N = Except.error heading_cfg_error ∧
    ∀ s : CommandState N, initUniformBodyVelocityCommand cfg N ≠ Except.ok s := by
  have he : initUniformBodyVelocityCommand cfg N = Except.error heading_cfg_error := by
    simp only [initUniformBodyVelocityCommand, h.1, h.2]
  refine ⟨he, fun s hs => ?_⟩
  rw [he] at hs
  exact Except.noConfusion hs

/-- Witness for C5 at a concrete configuration without a heading range. -/
theorem C5_construction_failure_witness :
    (cfgHeadingNone.heading_command = true ∧ cfgHeadingNone.ranges.heading = none) ∧
    initUniformBodyVelocityCommand cfgHeadingNone 1 = Except.error heading_cfg_error :=
  ⟨⟨rfl, rfl⟩, (C5_construction_failure cfgHeadingNone 1 ⟨rfl, rfl⟩).1⟩

/-- Claim C6: _resample_command only mutates the per-agent entries at the
given indices; every field of every other agent, and both metric
accumulators of all agents, are unchanged. -/
theorem C6_resample_frame {N : ℕ} (cfg : Cfg) (s : CommandState N)
    (env_ids : Finset (Fin N)) (draw : Fin N → Draw) (j : Fin N)
    (hj : j ∉ env_ids) :
    (resample_command cfg s env_ids draw).vel_command_b j = s.vel_command_b j ∧
    (resample_command cfg s env_ids draw).heading_target j = s.heading_target j ∧
    (resample_command cfg s env_ids draw).is_heading_env j = s.is_heading_env j ∧
    (resample_command cfg s env_ids draw).is_standing_env j = s.is_standing_env j ∧
    (resample_command cfg s env_ids draw).error_vel_xy = s.error_vel_xy ∧
    (resample_command cfg s env_ids draw).error_vel_yaw = s.error_vel_yaw := by
  refine ⟨?_, ?_, ?_, ?_, rfl, rfl⟩ <;> simp [resample_command, hj]

/-- Witness for C6: resampling agent 0 of two leaves agent 1 untouched. -/
theorem C6_resample_frame_witness :
    ((1 : Fin 2) ∉ ({0} : Finset (Fin 2))) ∧
    ((resample_command cfgHeadingOn stateTwo {0} (fun _ => drawZero)).vel_command_b 1 =
        stateTwo.vel_command_b 1 ∧
      (resample_command cfgHeadingOn stateTwo {0} (fun _ => drawZero)).heading_target 1 =
        stateTwo.heading_target 1 ∧
      (resample_command cfgHeadingOn stateTwo {0} (fun _ => drawZero)).is_heading_env 1 =
        stateTwo.is_heading_env 1 ∧
      (resample_command cfgHeadingOn stateTwo {0} (fun _ => drawZero)).is_standing_env 1 =
        stateTwo.is_standing_env 1 ∧
      (resample_command cfgHeadingOn stateTwo {0} (fun _ => drawZero)).error_vel_xy =
        stateTwo.error_vel_xy ∧
      (resample_command cfgHeadingOn stateTwo {0} (fun _ => drawZero)).error_vel_yaw =
        stateTwo.error_vel_yaw) :=
  ⟨by decide, C6_resample_frame cfgHeadingOn stateTwo {0} (fun _ => drawZero) 1 (by decide)⟩

/-- Claim C9 counterexample: the filter constructor accepts 2 and 0, both
outside (0,1], and returns filter objects rather than failing. -/
theorem C9_counterexample :
    LowPassFilter.init 2 = { alpha := 2, prev_value := none } ∧
    LowPassFilter.init 0 = { alpha := 0, prev_value := none } ∧
    ¬ ((0:ℝ) < 2 ∧ (2:ℝ) ≤ 1) :=
  ⟨rfl, rfl, by norm_num⟩

/-- Claim C9 (amended): the filter constructor performs no validation of
the smoothing factor: for every alpha it returns a filter storing alpha
with an empty previous value, and that filter is usable (its first apply
returns the input). -/
theorem C9_filter_init_no_validation (alpha v : ℝ) :
    (LowPassFilter.init alpha).alpha = alpha ∧
    (LowPassFilter.init alpha).prev_value = none ∧
    (LowPassFilter.init alpha).applyFilter v =
      ({ alpha := alpha, prev_value := some v }, v) :=
  ⟨rfl, rfl, rfl⟩

/-- Claim C10: with heading mode disabled, any sequence of resample and
update calls keeps the heading target at zero and the heading flag false,
and _update_command never touches angular z except through the standing
override. -/
theorem C10_no_heading_mode {N : ℕ} (cfg : Cfg) (hc : cfg.heading_command = false) :
    (∀ (s : CommandState N) (ops : List (GenOp N)),
      s.heading_target = (fun _ => 0) → s.is_heading_env = (fun _ => false) →
      (runOps cfg ops s).heading_target = (fun _ => 0) ∧
      (runOps cfg ops s).is_heading_env = (fun _ => false)) ∧
    (∀ (yaw : Fin N → ℝ) (s : CommandState N) (i : Fin N),
      (update_command cfg yaw s).vel_command_b i =
        if s.is_standing_env i = true then (⟨0, 0, 0⟩ : Vec3)
        else s.vel_command_b i) := by
  constructor
  · intro s ops
    induction ops generalizing s with
    | nil => intro h1 h2; exact ⟨h1, h2⟩
    | cons op ops ih =>
      intro h1 h2
      have hstep := applyOp_heading_fields cfg hc op s
      have hrec := ih (applyOp cfg op s) (by rw [hstep.1, h1]) (by rw [hstep.2, h2])
      have hrw : runOps cfg (op :: ops) s = runOps cfg ops (applyOp cfg op s) := rfl
      rw [hrw]
      exact hrec
  · intro yaw s i
    rw [update_command, apply_heading_of_not_heading cfg yaw s hc]
    rfl

/-- Witness for C10 at a concrete configuration with heading mode off. -/
theorem C10_no_heading_mode_witness :
    cfgHeadingOff.heading_command = false ∧
    ((∀ (s : CommandState 1) (ops : List (GenOp 1)),
      s.heading_target = (fun _ => 0) → s.is_heading_env = (fun _ => false) →
      (runOps cfgHeadingOff ops s).heading_target = (fun _ => 0) ∧
      (runOps cfgHeadingOff ops s).is_heading_env = (fun _ => false)) ∧
    (∀ (yaw : Fin 1 → ℝ) (s : CommandState 1) (i : Fin 1),
      (update_command cfgHeadingOff yaw s).vel_command_b i =
        if s.is_standing_env i = true then (⟨0, 0, 0⟩ : Vec3)
        else s.vel_command_b i)) :=
  ⟨rfl, C10_no_heading_mode cfgHeadingOff rfl⟩

/-- Claim C1 counterexample: with the linear x range [1,2] and an in-range
sampled command, a standing agent ends with command zero, whose x component
is outside its configured range. -/
theorem C1_counterexample :
    in_ranges cfgPositiveX (statePositiveX.vel_command_b 0) ∧
    ¬ in_ranges cfgPositiveX
      ((update_command cfgPositiveX (fun _ => 0) statePositiveX).vel_command_b 0) := by
  constructor
  · norm_num [in_ranges, cfgPositiveX, statePositiveX]
  · intro h
    have hc : (update_command cfgPositiveX (fun _ => 0) statePositiveX).vel_command_b 0 =
        ⟨0, 0, 0⟩ := by
      rw [update_command, apply_standing]
      dsimp only
      rw [apply_heading_is_standing]
      rw [if_pos (show statePositiveX.is_standing_env 0 = true from rfl)]
    rw [hc] at h
    have h1 := h.1.1
    norm_num [cfgPositiveX] at h1

/-- Claim C1 (amended): after _update_command every command component lies
within its configured range, given that the sampled values were drawn
within those ranges AND that every range contains zero (the standing
override writes zero, so a range excluding zero is violated by a standing
agent, as the counterexample shows). -/
theorem C1_bounds_amended {N : ℕ} (cfg : Cfg) (yaw : Fin N → ℝ)
    (s : CommandState N) (i : Fin N)
    (hx : cfg.ranges.lin_vel_x.1 ≤ 0 ∧ 0 ≤ cfg.ranges.lin_vel_x.2)
    (hy : cfg.ranges.lin_vel_y.1 ≤ 0 ∧ 0 ≤ cfg.ranges.lin_vel_y.2)
    (hz : cfg.ranges.ang_vel_z.1 ≤ 0 ∧ 0 ≤ cfg.ranges.ang_vel_z.2)
    (hin : in_ranges cfg (s.vel_command_b i)) :
    in_ranges cfg ((update_command cfg yaw s).vel_command_b i) := by
  have hzz : cfg.ranges.ang_vel_z.1 ≤ cfg.ranges.ang_vel_z.2 := le_trans hz.1 hz.2
  rw [update_command, apply_standing]
  dsimp only
  rw [apply_heading_is_standing]
  by_cases hstand : s.is_standing_env i = true
  · rw [if_pos hstand]
    exact ⟨⟨hx.1, hx.2⟩, ⟨hy.1, hy.2⟩, ⟨hz.1, hz.2⟩⟩
  · rw [if_neg hstand]
    rw [apply_heading]
    by_cases hcmd : cfg.heading_command = true
    · rw [if_pos hcmd]
      dsimp only
      by_cases hh : s.is_heading_env i = true
      · rw [if_pos hh]
        exact ⟨⟨hin.1.1, hin.1.2⟩, ⟨hin.2.1.1, hin.2.1.2⟩,
          ⟨le_clip _ _ _ hzz, clip_le _ _ _⟩⟩
      · rw [if_neg hh]
        exact hin
    · rw [if_neg hcmd]
      exact hin

/-- Witness for the amended C1 at a concrete zero-containing configuration
and an agent that is both heading controlled and standing. -/
theorem C1_bounds_amended_witness :
    ((cfgHeadingOn.ranges.lin_vel_x.1 ≤ 0 ∧ 0 ≤ cfgHeadingOn.ranges.lin_vel_x.2) ∧
     (cfgHeadingOn.ranges.lin_vel_y.1 ≤ 0 ∧ 0 ≤ cfgHeadingOn.ranges.lin_vel_y.2) ∧
     (cfgHeadingOn.ranges.ang_vel_z.1 ≤ 0 ∧ 0 ≤ cfgHeadingOn.ranges.ang_vel_z.2) ∧
     in_ranges cfgHeadingOn (stateOne.vel_command_b 0)) ∧
    in_ranges cfgHeadingOn
      ((update_command cfgHeadingOn (fun _ => 0) stateOne).vel_command_b 0) := by
  have hx : cfgHeadingOn.ranges.lin_vel_x.1 ≤ 0 ∧ 0 ≤ cfgHeadingOn.ranges.lin_vel_x.2 := by
    norm_num [cfgHeadingOn]
  have hy : cfgHeadingOn.ranges.lin_vel_y.1 ≤ 0 ∧ 0 ≤ cfgHeadingOn.ranges.lin_vel_y.2 := by
    norm_num [cfgHeadingOn]
  have hz : cfgHeadingOn.ranges.ang_vel_z.1 ≤ 0 ∧ 0 ≤ cfgHeadingOn.ranges.ang_vel_z.2 := by
    norm_num [cfgHeadingOn]
  have hin : in_ranges cfgHeadingOn (stateOne.vel_command_b 0) := by
    norm_num [in_ranges, cfgHeadingOn, stateOne]
  exact ⟨⟨hx, hy, hz, hin⟩,
    C1_bounds_amended cfgHeadingOn (fun _ => 0) stateOne 0 hx hy hz hin⟩

theorem update_metrics_core_vel {N : ℕ} (cfg : Cfg) (step_dt : ℝ)
    (T : Matrix (Fin 3) (Fin 3) ℝ) (data : BodyData N) (s : CommandState N) :
    (update_metrics_core cfg step_dt T data s).vel_command_b = s.vel_command_b := rfl

theorem update_metrics_core_xy {N : ℕ} (cfg : Cfg) (step_dt : ℝ)
    (T : Matrix (Fin 3) (Fin 3) ℝ) (data : BodyData N) (s : CommandState N)
    (i : Fin N) :
    (update_metrics_core cfg step_dt T data s).error_vel_xy i =
      s.error_vel_xy i + xy_err_increment cfg step_dt T data s.vel_command_b i := rfl

theorem update_metrics_core_iterate_vel {N : ℕ} (cfg : Cfg) (step_dt : ℝ)
    (T : Matrix (Fin 3) (Fin 3) ℝ) (data : BodyData N) (s : CommandState N)
    (k : ℕ) :
    ((update_metrics_core cfg step_dt T data)^[k] s).vel_command_b = s.vel_command_b := by
  induction k with
  | zero => rfl
  | succ k ih =>
    rw [Function.iterate_succ_apply', update_metrics_core_vel, ih]

theorem update_metrics_core_iterate_xy {N : ℕ} (cfg : Cfg) (step_dt : ℝ)
    (T : Matrix (Fin 3) (Fin 3) ℝ) (data : BodyData N) (s : CommandState N)
    (i : Fin N) (k : ℕ) :
    ((update_metrics_core cfg step_dt T data)^[k] s).error_vel_xy i =
      s.error_vel_xy i + k * xy_err_increment cfg step_dt T data s.vel_command_b i := by
  induction k with
  | zero => simp
  | succ k ih =>
    rw [Function.iterate_succ_apply', update_metrics_core_xy,
      update_metrics_core_iterate_vel, ih]
    push_cast
    ring

theorem metrics_code_yaw_eval :
    ∃ s', update_metrics cfgMetrics 1 bodyDataOne stateCmdX = some s' ∧
      s'.error_vel_yaw 0 = 0 := by
  refine ⟨_, rfl, ?_⟩
  show (update_metrics_core cfgMetrics 1 tf_leg1link2 bodyDataOne stateCmdX).error_vel_yaw 0 = 0
  simp only [update_metrics_core, cfgMetrics, bodyDataOne, stateCmdX]
  norm_num [Matrix.cons_val_two, Matrix.vecTail, Matrix.vecHead]

theorem metrics_spec_yaw_eval :
    ∃ s', update_metrics_spec cfgMetrics 1 bodyDataOne stateCmdX = some s' ∧
      s'.error_vel_yaw 0 = 1 / 200 := by
  refine ⟨_, rfl, ?_⟩
  simp only [update_metrics_spec, cfgMetrics, bodyDataOne, stateCmdX, tf_leg1link2,
    quat_rotate_inverse, quat_mul, Matrix.one_mul]
  norm_num [Matrix.mulVec, Matrix.dotProduct, Fin.sum_univ_three, Matrix.transpose_apply,
    Matrix.cons_val', Matrix.cons_val_zero, Matrix.cons_val_one, Matrix.head_cons,
    Matrix.cons_val_two, Matrix.vecTail, Matrix.vecHead, Matrix.empty_val',
    Matrix.cons_val_fin_one, Matrix.head_fin_const]

/-- Claim C7 counterexample: at a concrete input where the world angular z
is zero but the desired-frame angular z is one, _update_metrics differs
from the spec version that expresses both error terms in the desired frame:
the code adds zero to the yaw accumulator, the spec adds 1/200. -/
theorem C7_counterexample :
    update_metrics cfgMetrics 1 bodyDataOne stateCmdX ≠
      update_metrics_spec cfgMetrics 1 bodyDataOne stateCmdX := by
  intro h
  obtain ⟨a, ha, ha0⟩ := metrics_code_yaw_eval
  obtain ⟨b, hb, hb0⟩ := metrics_spec_yaw_eval
  rw [ha, hb] at h
  have hab : a = b := Option.some.inj h
  rw [hab, hb0] at ha0
  norm_num at ha0

/-- Claim C7 (amended): each tick _update_metrics adds to the linear
accumulator the norm of the difference between the commanded xy and the
measured linear velocity expressed in the desired frame (via the frame
transform resolver _get_body_vel_d), divided by the maximum command steps;
but to the angular accumulator it adds the difference between the commanded
z and the WORLD-frame measured angular z (not the desired frame), divided
by the same normalizer. -/
theorem C7_metrics_frames {N : ℕ} (cfg : Cfg) (step_dt : ℝ) (data : BodyData N)
    (s : CommandState N) (T : Matrix (Fin 3) (Fin 3) ℝ)
    (hT : tf_d_matrix cfg.body_name = some T) (i : Fin N) :
    ∃ s' vd, update_metrics cfg step_dt data s = some s' ∧
      get_body_vel_d cfg.body_name (data.body_quat_w i) (data.body_lin_vel_w i) = some vd ∧
      s'.error_vel_xy i = s.error_vel_xy i +
        Real.sqrt (((s.vel_command_b i).x - vd 0) ^ 2 +
            ((s.vel_command_b i).y - vd 1) ^ 2) /
          (cfg.resampling_time_range.2 / step_dt) ∧
      s'.error_vel_yaw i = s.error_vel_yaw i +
        |(s.vel_command_b i).z - data.body_ang_vel_w i 2| /
          (cfg.resampling_time_range.2 / step_dt) := by
  refine ⟨update_metrics_core cfg step_dt T data s,
    quat_rotate_inverse (quat_mul (data.body_quat_w i) T) (data.body_lin_vel_w i),
    ?_, ?_, rfl, rfl⟩
  · rw [update_metrics, hT]
  · rw [get_body_vel_d, hT]

/-- Witness for the amended C7 at a concrete metric configuration. -/
theorem C7_metrics_frames_witness :
    tf_d_matrix cfgMetrics.body_name = some tf_leg1link2 ∧
    (∃ s' vd, update_metrics cfgMetrics 1 bodyDataOne stateCmdX = some s' ∧
      get_body_vel_d cfgMetrics.body_name (bodyDataOne.body_quat_w 0)
          (bodyDataOne.body_lin_vel_w 0) = some vd ∧
      s'.error_vel_xy 0 = stateCmdX.error_vel_xy 0 +
        Real.sqrt (((stateCmdX.vel_command_b 0).x - vd 0) ^ 2 +
            ((stateCmdX.vel_command_b 0).y - vd 1) ^ 2) /
          (cfgMetrics.resampling_time_range.2 / 1) ∧
      s'.error_vel_yaw 0 = stateCmdX.error_vel_yaw 0 +
        |(stateCmdX.vel_command_b 0).z - bodyDataOne.body_ang_vel_w 0 2| /
          (cfgMetrics.resampling_time_range.2 / 1)) :=
  ⟨rfl, C7_metrics_frames cfgMetrics 1 bodyDataOne stateCmdX tf_leg1link2 rfl 0⟩

/-- Claim C8: with maximum command steps 200, commanded linear velocity
(1,0) and zero measured linear velocity over 200 consecutive ticks from a
zero accumulator, the linear error accumulator is exactly 1. -/
theorem C8_metric_accumulation {N : ℕ} (cfg : Cfg) (step_dt : ℝ)
    (T : Matrix (Fin 3) (Fin 3) ℝ) (data : BodyData N) (s : CommandState N)
    (i : Fin N)
    (hsteps : cfg.resampling_time_range.2 / step_dt = 200)
    (hx : (s.vel_command_b i).x = 1) (hy : (s.vel_command_b i).y = 0)
    (hmeas : data.body_lin_vel_w i = 0) (hacc : s.error_vel_xy i = 0) :
    ((update_metrics_core cfg step_dt T data)^[200] s).error_vel_xy i = 1 := by
  have hinc : xy_err_increment cfg step_dt T data s.vel_command_b i = 1 / 200 := by
    rw [xy_err_increment, hmeas, hsteps]
    simp only [quat_rotate_inverse, Matrix.mulVec_zero, Pi.zero_apply]
    rw [hx, hy]
    norm_num
  rw [update_metrics_core_iterate_xy, hacc, hinc]
  norm_num

/-- Witness for C8 at the concrete metric configuration. -/
theorem C8_metric_accumulation_witness :
    (cfgMetrics.resampling_time_range.2 / 1 = 200 ∧
     (stateCmdX.vel_command_b 0).x = 1 ∧ (stateCmdX.vel_command_b 0).y = 0 ∧
     bodyDataOne.body_lin_vel_w 0 = 0 ∧ stateCmdX.error_vel_xy 0 = 0) ∧
    ((update_metrics_core cfgMetrics 1 tf_leg1link2 bodyDataOne)^[200]
        stateCmdX).error_vel_xy 0 = 1 := by
  have hsteps : cfgMetrics.resampling_time_range.2 / 1 = 200 := by
    norm_num [cfgMetrics]
  exact ⟨⟨hsteps, rfl, rfl, rfl, rfl⟩,
    C8_metric_accumulation cfgMetrics 1 tf_leg1link2 bodyDataOne stateCmdX 0
      hsteps rfl rfl rfl rfl⟩
